import Mathlib

/-!
Verification of the librbd I/O entry layer (`src/librbd/api/Io.cc`).

The file shallowly embeds the entry layer: the validity guard
`is_valid_io`, the six asynchronous entry points, and the six synchronous
wrappers.  Machine integers are modelled as `Nat` (offsets, lengths) and
`Int` (signed results).  The external dispatch pipeline is modelled by a
single parameter `pipeline_result`: the signed value with which the
pipeline would resolve a submitted completion.  The bounds clipper
`clip_io` lives in `librbd/internal.cc`, outside the sources at hand, and
is modelled from the specification.
-/

namespace RbdIo

/-- errno value for "no such device", used as `-ENODEV`. -/
def ENODEV : Int := 19

/-- errno value for "invalid argument", used as `-EINVAL`. -/
def EINVAL : Int := 22

/-- The operation kinds recorded on a completion by `init_time`
(`io::AIO_TYPE_*`). -/
inductive AioType where
  | read
  | write
  | discard
  | writesame
  | compare_and_write
  | flush
deriving DecidableEq, Repr

/-- The slice of `librbd::ImageCtx` that `Io.cc` reads: the logical image
size (read under `image_lock`), validity of the backing data pool
(`data_ctx.is_valid()`), and validity of the event channel
(`event_socket.is_valid()`). -/
structure ImageCtx where
  size : Nat
  data_ctx_valid : Bool
  event_socket_valid : Bool
deriving DecidableEq, Repr

/-- The observable state of an `io::AioCompletion` as manipulated by this
layer: the operation kind recorded by `init_time`, the event-notify flag,
the error this layer failed the completion with (if any), and how many
times `fail` was called. -/
structure AioCompletion where
  aio_type : Option AioType
  event_notify : Bool
  fail_code : Option Int
  fail_count : Nat
deriving DecidableEq, Repr

/-- `io::AioCompletion::create`: a fresh, unresolved completion. -/
def AioCompletion.create : AioCompletion :=
  { aio_type := none, event_notify := false, fail_code := none, fail_count := 0 }

/-- `AioCompletion::init_time`: records the operation kind (and start
time, which we do not model). -/
def AioCompletion.init_time (c : AioCompletion) (t : AioType) : AioCompletion :=
  { c with aio_type := some t }

/-- `AioCompletion::set_event_notify`. -/
def AioCompletion.set_event_notify (c : AioCompletion) (b : Bool) : AioCompletion :=
  { c with event_notify := b }

/-- `AioCompletion::fail`: resolves the completion with an error code. -/
def AioCompletion.fail (c : AioCompletion) (r : Int) : AioCompletion :=
  { c with fail_code := some r, fail_count := c.fail_count + 1 }

/-- The fixed pipeline entry tag attached to every request built here
(`io::IMAGE_DISPATCH_LAYER_API_START`). -/
inductive DispatchLayer where
  | api_start
deriving DecidableEq, Repr

/-- `io::ImageDispatchSpec`: the typed request built by each `aio_*`
entry point, tagged with the pipeline entry layer.  Buffers are byte
lists. -/
inductive ImageDispatchSpec where
  | read (layer : DispatchLayer) (off len : Nat) (op_flags : Int)
  | write (layer : DispatchLayer) (off len : Nat) (bl : List Nat) (op_flags : Int)
  | discard (layer : DispatchLayer) (off len : Nat)
      (discard_granularity_bytes : Nat)
  | write_same (layer : DispatchLayer) (off len : Nat) (bl : List Nat)
      (op_flags : Int)
  | compare_and_write (layer : DispatchLayer) (off len : Nat)
      (cmp_bl bl : List Nat) (op_flags : Int)
  | flush (layer : DispatchLayer)
deriving DecidableEq, Repr

/-- `is_valid_io` (Io.cc, anonymous namespace): if the backing data pool
is invalid, fails the completion with `-ENODEV` and returns `false`;
otherwise returns `true` leaving the completion untouched. -/
def is_valid_io (image_ctx : ImageCtx) (aio_comp : AioCompletion) :
    Bool × AioCompletion :=
  if !image_ctx.data_ctx_valid then
    (false, aio_comp.fail (-ENODEV))
  else
    (true, aio_comp)

/-- Modelled from the spec: the bounds clipper `clip_io` lives in
`librbd/internal.cc`, which is not among the sources here; §4.2 of the
spec says it reads the current logical size under the shared size lock,
fails with an "invalid request" status when the offset is at or beyond
the image size, and otherwise clips the length so that
`offset + length` does not exceed the current size, returning the
(possibly reduced) length.  The result is `(status, clipped_length)`;
on failure the length is returned unchanged. -/
def clip_io (size off len : Nat) : Int × Nat :=
  if size ≤ off then
    (-EINVAL, len)
  else if size < off + len then
    (0, size - off)
  else
    (0, len)

/-- The blocking `C_SaferCond::wait` as observed by the synchronous
wrappers: if this layer failed the completion, the fail code is
delivered; otherwise the completion is resolved by the dispatch pipeline
with `pipeline_result`. -/
def wait_result (aio_comp : AioCompletion) (pipeline_result : Int) : Int :=
  match aio_comp.fail_code with
  | some r => r
  | none => pipeline_result

/-- `Io<I>::aio_read`: records kind, optionally sets event-notify, runs
the validity guard, and on success builds and submits one read request.
Returns the final completion state and the submitted request, if any. -/
def aio_read (image_ctx : ImageCtx) (aio_comp : AioCompletion)
    (off len : Nat) (op_flags : Int) (native_async : Bool) :
    AioCompletion × Option ImageDispatchSpec :=
  let aio_comp := aio_comp.init_time .read
  let aio_comp :=
    if native_async && image_ctx.event_socket_valid then
      aio_comp.set_event_notify true
    else
      aio_comp
  let v := is_valid_io image_ctx aio_comp
  if v.1 = false then
    (v.2, none)
  else
    (v.2, some (.read .api_start off len op_flags))

/-- `Io<I>::aio_write`. -/
def aio_write (image_ctx : ImageCtx) (aio_comp : AioCompletion)
    (off len : Nat) (bl : List Nat) (op_flags : Int) (native_async : Bool) :
    AioCompletion × Option ImageDispatchSpec :=
  let aio_comp := aio_comp.init_time .write
  let aio_comp :=
    if native_async && image_ctx.event_socket_valid then
      aio_comp.set_event_notify true
    else
      aio_comp
  let v := is_valid_io image_ctx aio_comp
  if v.1 = false then
    (v.2, none)
  else
    (v.2, some (.write .api_start off len bl op_flags))

/-- `Io<I>::aio_discard`. -/
def aio_discard (image_ctx : ImageCtx) (aio_comp : AioCompletion)
    (off len : Nat) (discard_granularity_bytes : Nat) (native_async : Bool) :
    AioCompletion × Option ImageDispatchSpec :=
  let aio_comp := aio_comp.init_time .discard
  let aio_comp :=
    if native_async && image_ctx.event_socket_valid then
      aio_comp.set_event_notify true
    else
      aio_comp
  let v := is_valid_io image_ctx aio_comp
  if v.1 = false then
    (v.2, none)
  else
    (v.2, some (.discard .api_start off len discard_granularity_bytes))

/-- `Io<I>::aio_write_same`. -/
def aio_write_same (image_ctx : ImageCtx) (aio_comp : AioCompletion)
    (off len : Nat) (bl : List Nat) (op_flags : Int) (native_async : Bool) :
    AioCompletion × Option ImageDispatchSpec :=
  let aio_comp := aio_comp.init_time .writesame
  let aio_comp :=
    if native_async && image_ctx.event_socket_valid then
      aio_comp.set_event_notify true
    else
      aio_comp
  let v := is_valid_io image_ctx aio_comp
  if v.1 = false then
    (v.2, none)
  else
    (v.2, some (.write_same .api_start off len bl op_flags))

/-- `Io<I>::aio_compare_and_write`.  The mismatch-offset output slot is
populated downstream by the pipeline and is not modelled. -/
def aio_compare_and_write (image_ctx : ImageCtx) (aio_comp : AioCompletion)
    (off len : Nat) (cmp_bl bl : List Nat) (op_flags : Int)
    (native_async : Bool) :
    AioCompletion × Option ImageDispatchSpec :=
  let aio_comp := aio_comp.init_time .compare_and_write
  let aio_comp :=
    if native_async && image_ctx.event_socket_valid then
      aio_comp.set_event_notify true
    else
      aio_comp
  let v := is_valid_io image_ctx aio_comp
  if v.1 = false then
    (v.2, none)
  else
    (v.2, some (.compare_and_write .api_start off len cmp_bl bl op_flags))

/-- `Io<I>::aio_flush`. -/
def aio_flush (image_ctx : ImageCtx) (aio_comp : AioCompletion)
    (native_async : Bool) :
    AioCompletion × Option ImageDispatchSpec :=
  let aio_comp := aio_comp.init_time .flush
  let aio_comp :=
    if native_async && image_ctx.event_socket_valid then
      aio_comp.set_event_notify true
    else
      aio_comp
  let v := is_valid_io image_ctx aio_comp
  if v.1 = false then
    (v.2, none)
  else
    (v.2, some (.flush .api_start))

/-- What a synchronous wrapper did: the value it returns, the completion
it created (if it got that far), and the request it submitted (if any). -/
structure SyncOutcome where
  result : Int
  comp : Option AioCompletion
  submitted : Option ImageDispatchSpec
deriving DecidableEq, Repr

/-- `Io<I>::read`: no clipping; create a completion, call `aio_read`
with `native_async = false`, and return the waited result unchanged. -/
def read (image_ctx : ImageCtx) (off len : Nat) (op_flags : Int)
    (pipeline_result : Int) : SyncOutcome :=
  let ar := aio_read image_ctx AioCompletion.create off len op_flags false
  { result := wait_result ar.1 pipeline_result
    comp := some ar.1
    submitted := ar.2 }

/-- `Io<I>::write`: clip first (returning the error directly on clip
failure, before any completion exists), then create a completion, call
`aio_write` with `native_async = false`, wait, and return the clipped
length on success or the negative result on failure. -/
def write (image_ctx : ImageCtx) (off len : Nat) (bl : List Nat)
    (op_flags : Int) (pipeline_result : Int) : SyncOutcome :=
  let clipped := clip_io image_ctx.size off len
  if clipped.1 < 0 then
    { result := clipped.1, comp := none, submitted := none }
  else
    let ar := aio_write image_ctx AioCompletion.create off clipped.2 bl
      op_flags false
    let r := wait_result ar.1 pipeline_result
    if r < 0 then
      { result := r, comp := some ar.1, submitted := ar.2 }
    else
      { result := (clipped.2 : Int), comp := some ar.1, submitted := ar.2 }

/-- `Io<I>::discard`: same shape as `write`. -/
def discard (image_ctx : ImageCtx) (off len : Nat)
    (discard_granularity_bytes : Nat) (pipeline_result : Int) : SyncOutcome :=
  let clipped := clip_io image_ctx.size off len
  if clipped.1 < 0 then
    { result := clipped.1, comp := none, submitted := none }
  else
    let ar := aio_discard image_ctx AioCompletion.create off clipped.2
      discard_granularity_bytes false
    let r := wait_result ar.1 pipeline_result
    if r < 0 then
      { result := r, comp := some ar.1, submitted := ar.2 }
    else
      { result := (clipped.2 : Int), comp := some ar.1, submitted := ar.2 }

/-- `Io<I>::write_same`: same shape as `write`. -/
def write_same (image_ctx : ImageCtx) (off len : Nat) (bl : List Nat)
    (op_flags : Int) (pipeline_result : Int) : SyncOutcome :=
  let clipped := clip_io image_ctx.size off len
  if clipped.1 < 0 then
    { result := clipped.1, comp := none, submitted := none }
  else
    let ar := aio_write_same image_ctx AioCompletion.create off clipped.2 bl
      op_flags false
    let r := wait_result ar.1 pipeline_result
    if r < 0 then
      { result := r, comp := some ar.1, submitted := ar.2 }
    else
      { result := (clipped.2 : Int), comp := some ar.1, submitted := ar.2 }

/-- `Io<I>::compare_and_write`: same shape as `write`. -/
def compare_and_write (image_ctx : ImageCtx) (off len : Nat)
    (cmp_bl bl : List Nat) (op_flags : Int) (pipeline_result : Int) :
    SyncOutcome :=
  let clipped := clip_io image_ctx.size off len
  if clipped.1 < 0 then
    { result := clipped.1, comp := none, submitted := none }
  else
    let ar := aio_compare_and_write image_ctx AioCompletion.create off
      clipped.2 cmp_bl bl op_flags false
    let r := wait_result ar.1 pipeline_result
    if r < 0 then
      { result := r, comp := some ar.1, submitted := ar.2 }
    else
      { result := (clipped.2 : Int), comp := some ar.1, submitted := ar.2 }

/-- `Io<I>::flush`: create a completion, call `aio_flush` with
`native_async = false`, wait, and return 0 on success or the negative
result on failure. -/
def flush (image_ctx : ImageCtx) (pipeline_result : Int) : SyncOutcome :=
  let ar := aio_flush image_ctx AioCompletion.create false
  let r := wait_result ar.1 pipeline_result
  if r < 0 then
    { result := r, comp := some ar.1, submitted := ar.2 }
  else
    { result := 0, comp := some ar.1, submitted := ar.2 }

/-- The event-notify flag of the completion a synchronous wrapper
created, or `false` when it created none. -/
def outcome_event_notify (o : SyncOutcome) : Bool :=
  match o.comp with
  | some c => c.event_notify
  | none => false

/-! ## Helper lemmas -/

theorem aio_write_fail_code_of_valid (image_ctx : ImageCtx)
    (c : AioCompletion) (off len : Nat) (bl : List Nat) (fl : Int)
    (na : Bool) (h : image_ctx.data_ctx_valid = true) :
    (aio_write image_ctx c off len bl fl na).1.fail_code = c.fail_code := by
  cases hn : na && image_ctx.event_socket_valid <;>
    simp [aio_write, is_valid_io, h, hn, AioCompletion.init_time,
      AioCompletion.set_event_notify]

theorem aio_discard_fail_code_of_valid (image_ctx : ImageCtx)
    (c : AioCompletion) (off len gran : Nat) (na : Bool)
    (h : image_ctx.data_ctx_valid = true) :
    (aio_discard image_ctx c off len gran na).1.fail_code = c.fail_code := by
  cases hn : na && image_ctx.event_socket_valid <;>
    simp [aio_discard, is_valid_io, h, hn, AioCompletion.init_time,
      AioCompletion.set_event_notify]

theorem aio_write_same_fail_code_of_valid (image_ctx : ImageCtx)
    (c : AioCompletion) (off len : Nat) (bl : List Nat) (fl : Int)
    (na : Bool) (h : image_ctx.data_ctx_valid = true) :
    (aio_write_same image_ctx c off len bl fl na).1.fail_code = c.fail_code := by
  cases hn : na && image_ctx.event_socket_valid <;>
    simp [aio_write_same, is_valid_io, h, hn, AioCompletion.init_time,
      AioCompletion.set_event_notify]

theorem aio_caw_fail_code_of_valid (image_ctx : ImageCtx)
    (c : AioCompletion) (off len : Nat) (cmp_bl bl : List Nat) (fl : Int)
    (na : Bool) (h : image_ctx.data_ctx_valid = true) :
    (aio_compare_and_write image_ctx c off len cmp_bl bl fl na).1.fail_code =
      c.fail_code := by
  cases hn : na && image_ctx.event_socket_valid <;>
    simp [aio_compare_and_write, is_valid_io, h, hn, AioCompletion.init_time,
      AioCompletion.set_event_notify]

theorem aio_read_fail_code_of_valid (image_ctx : ImageCtx)
    (c : AioCompletion) (off len : Nat) (fl : Int) (na : Bool)
    (h : image_ctx.data_ctx_valid = true) :
    (aio_read image_ctx c off len fl na).1.fail_code = c.fail_code := by
  cases hn : na && image_ctx.event_socket_valid <;>
    simp [aio_read, is_valid_io, h, hn, AioCompletion.init_time,
      AioCompletion.set_event_notify]

theorem aio_flush_fail_code_of_valid (image_ctx : ImageCtx)
    (c : AioCompletion) (na : Bool)
    (h : image_ctx.data_ctx_valid = true) :
    (aio_flush image_ctx c na).1.fail_code = c.fail_code := by
  cases hn : na && image_ctx.event_socket_valid <;>
    simp [aio_flush, is_valid_io, h, hn, AioCompletion.init_time,
      AioCompletion.set_event_notify]

theorem write_result_eq_clipped (image_ctx : ImageCtx) (off len : Nat)
    (bl : List Nat) (fl p : Int)
    (hclip : (clip_io image_ctx.size off len).1 = 0)
    (hvalid : image_ctx.data_ctx_valid = true) (hp : 0 ≤ p) :
    (write image_ctx off len bl fl p).result =
      ((clip_io image_ctx.size off len).2 : Int) := by
  have hf : (aio_write image_ctx AioCompletion.create off
      (clip_io image_ctx.size off len).2 bl fl false).1.fail_code = none :=
    (aio_write_fail_code_of_valid image_ctx AioCompletion.create off
      (clip_io image_ctx.size off len).2 bl fl false hvalid).trans rfl
  simp only [write, hclip, wait_result, hf]
  rw [if_neg (by norm_num), if_neg (not_lt.mpr hp)]

theorem discard_result_eq_clipped (image_ctx : ImageCtx) (off len gran : Nat)
    (p : Int) (hclip : (clip_io image_ctx.size off len).1 = 0)
    (hvalid : image_ctx.data_ctx_valid = true) (hp : 0 ≤ p) :
    (discard image_ctx off len gran p).result =
      ((clip_io image_ctx.size off len).2 : Int) := by
  have hf : (aio_discard image_ctx AioCompletion.create off
      (clip_io image_ctx.size off len).2 gran false).1.fail_code = none :=
    (aio_discard_fail_code_of_valid image_ctx AioCompletion.create off
      (clip_io image_ctx.size off len).2 gran false hvalid).trans rfl
  simp only [discard, hclip, wait_result, hf]
  rw [if_neg (by norm_num), if_neg (not_lt.mpr hp)]

theorem write_same_result_eq_clipped (image_ctx : ImageCtx) (off len : Nat)
    (bl : List Nat) (fl p : Int)
    (hclip : (clip_io image_ctx.size off len).1 = 0)
    (hvalid : image_ctx.data_ctx_valid = true) (hp : 0 ≤ p) :
    (write_same image_ctx off len bl fl p).result =
      ((clip_io image_ctx.size off len).2 : Int) := by
  have hf : (aio_write_same image_ctx AioCompletion.create off
      (clip_io image_ctx.size off len).2 bl fl false).1.fail_code = none :=
    (aio_write_same_fail_code_of_valid image_ctx AioCompletion.create off
      (clip_io image_ctx.size off len).2 bl fl false hvalid).trans rfl
  simp only [write_same, hclip, wait_result, hf]
  rw [if_neg (by norm_num), if_neg (not_lt.mpr hp)]

theorem caw_result_eq_clipped (image_ctx : ImageCtx) (off len : Nat)
    (cmp_bl bl : List Nat) (fl p : Int)
    (hclip : (clip_io image_ctx.size off len).1 = 0)
    (hvalid : image_ctx.data_ctx_valid = true) (hp : 0 ≤ p) :
    (compare_and_write image_ctx off len cmp_bl bl fl p).result =
      ((clip_io image_ctx.size off len).2 : Int) := by
  have hf : (aio_compare_and_write image_ctx AioCompletion.create off
      (clip_io image_ctx.size off len).2 cmp_bl bl fl false).1.fail_code =
      none :=
    (aio_caw_fail_code_of_valid image_ctx AioCompletion.create off
      (clip_io image_ctx.size off len).2 cmp_bl bl fl false hvalid).trans rfl
  simp only [compare_and_write, hclip, wait_result, hf]
  rw [if_neg (by norm_num), if_neg (not_lt.mpr hp)]

/-! ## Claim theorems -/

/-- C1: for every write-class operation, a successful clip step yields a
length with `offset + clipped_length ≤ image_size` (the size read at clip
time) and `clipped_length ≤ requested_length`. -/
theorem clip_io_length_bounds (size off len : Nat)
    (h : (clip_io size off len).1 = 0) :
    off + (clip_io size off len).2 ≤ size ∧
      (clip_io size off len).2 ≤ len := by
  unfold clip_io at h ⊢
  by_cases h1 : size ≤ off
  · rw [if_pos h1] at h
    norm_num [EINVAL] at h
  · by_cases h2 : size < off + len <;> simp [h1, h2] <;> omega

theorem clip_io_length_bounds_witness :
    (clip_io 1000 900 200).1 = 0 ∧
      (900 + (clip_io 1000 900 200).2 ≤ 1000 ∧
        (clip_io 1000 900 200).2 ≤ 200) :=
  ⟨by decide, clip_io_length_bounds 1000 900 200 (by decide)⟩

/-- C2: for every operation kind, when the backing data store is invalid
the asynchronous entry point fails the completion with `-ENODEV` and
submits no request; when it is valid, the validity check has no side
effects (it returns the completion unchanged). -/
theorem aio_invalid_store_rejects (image_ctx : ImageCtx)
    (c : AioCompletion) (off len gran : Nat) (bl cmp_bl : List Nat)
    (fl : Int) (na : Bool) :
    (image_ctx.data_ctx_valid = false →
      ((aio_read image_ctx c off len fl na).1.fail_code = some (-ENODEV) ∧
        (aio_read image_ctx c off len fl na).2 = none) ∧
      ((aio_write image_ctx c off len bl fl na).1.fail_code = some (-ENODEV) ∧
        (aio_write image_ctx c off len bl fl na).2 = none) ∧
      ((aio_discard image_ctx c off len gran na).1.fail_code = some (-ENODEV) ∧
        (aio_discard image_ctx c off len gran na).2 = none) ∧
      ((aio_write_same image_ctx c off len bl fl na).1.fail_code =
          some (-ENODEV) ∧
        (aio_write_same image_ctx c off len bl fl na).2 = none) ∧
      ((aio_compare_and_write image_ctx c off len cmp_bl bl fl
            na).1.fail_code = some (-ENODEV) ∧
        (aio_compare_and_write image_ctx c off len cmp_bl bl fl na).2 =
          none) ∧
      ((aio_flush image_ctx c na).1.fail_code = some (-ENODEV) ∧
        (aio_flush image_ctx c na).2 = none) ∧
      -ENODEV < 0) ∧
    (image_ctx.data_ctx_valid = true →
      is_valid_io image_ctx c = (true, c)) := by
  constructor
  · intro h
    refine ⟨?_, ?_, ?_, ?_, ?_, ?_, by norm_num [ENODEV]⟩ <;>
      cases hn : na && image_ctx.event_socket_valid <;>
        simp [aio_read, aio_write, aio_discard, aio_write_same,
          aio_compare_and_write, aio_flush, is_valid_io, h, hn,
          AioCompletion.init_time, AioCompletion.set_event_notify,
          AioCompletion.fail]
  · intro h
    simp [is_valid_io, h]

theorem aio_invalid_store_rejects_witness :
    ((aio_flush ⟨1000, false, false⟩ AioCompletion.create false).1.fail_code =
        some (-ENODEV) ∧
      (aio_flush ⟨1000, false, false⟩ AioCompletion.create false).2 = none) ∧
    is_valid_io ⟨1000, true, false⟩ AioCompletion.create =
      (true, AioCompletion.create) :=
  ⟨((aio_invalid_store_rejects ⟨1000, false, false⟩ AioCompletion.create
      0 0 0 [] [] 0 false).1 rfl).2.2.2.2.2.1,
   (aio_invalid_store_rejects ⟨1000, true, false⟩ AioCompletion.create
      0 0 0 [] [] 0 false).2 rfl⟩

/-- C3: for every synchronous write-class call whose offset is at or
beyond the image's current logical size, the wrapper returns the negative
"invalid request" code `-EINVAL` directly, creates no completion, and
submits nothing to the pipeline. -/
theorem sync_write_class_offset_beyond (image_ctx : ImageCtx)
    (off len gran : Nat) (bl cmp_bl : List Nat) (fl p : Int)
    (h : image_ctx.size ≤ off) :
    ((write image_ctx off len bl fl p).result = -EINVAL ∧
      (write image_ctx off len bl fl p).result < 0 ∧
      (write image_ctx off len bl fl p).comp = none ∧
      (write image_ctx off len bl fl p).submitted = none) ∧
    ((discard image_ctx off len gran p).result = -EINVAL ∧
      (discard image_ctx off len gran p).result < 0 ∧
      (discard image_ctx off len gran p).comp = none ∧
      (discard image_ctx off len gran p).submitted = none) ∧
    ((write_same image_ctx off len bl fl p).result = -EINVAL ∧
      (write_same image_ctx off len bl fl p).result < 0 ∧
      (write_same image_ctx off len bl fl p).comp = none ∧
      (write_same image_ctx off len bl fl p).submitted = none) ∧
    ((compare_and_write image_ctx off len cmp_bl bl fl p).result = -EINVAL ∧
      (compare_and_write image_ctx off len cmp_bl bl fl p).result < 0 ∧
      (compare_and_write image_ctx off len cmp_bl bl fl p).comp = none ∧
      (compare_and_write image_ctx off len cmp_bl bl fl p).submitted =
        none) := by
  have hc : clip_io image_ctx.size off len = (-EINVAL, len) := by
    simp [clip_io, h]
  refine ⟨⟨?_, ?_, ?_, ?_⟩, ⟨?_, ?_, ?_, ?_⟩, ⟨?_, ?_, ?_, ?_⟩,
    ⟨?_, ?_, ?_, ?_⟩⟩ <;>
    simp [write, discard, write_same, compare_and_write, hc] <;>
      norm_num [EINVAL]

theorem sync_write_class_offset_beyond_witness :
    (write ⟨1000, true, true⟩ 1000 50 [] 0 0).result = -EINVAL ∧
      (write ⟨1000, true, true⟩ 1000 50 [] 0 0).comp = none ∧
      (write ⟨1000, true, true⟩ 1000 50 [] 0 0).submitted = none :=
  have h := (sync_write_class_offset_beyond ⟨1000, true, true⟩ 1000 50 0
    [] [] 0 0 (by norm_num)).1
  ⟨h.1, h.2.2.1, h.2.2.2⟩

/-- C4: every synchronous write-class call that succeeds (the pipeline
resolves the completion non-negatively) returns the clipped length, not
the originally requested length. -/
theorem sync_write_class_returns_clipped (image_ctx : ImageCtx)
    (off len gran : Nat) (bl cmp_bl : List Nat) (fl p : Int)
    (hclip : (clip_io image_ctx.size off len).1 = 0)
    (hvalid : image_ctx.data_ctx_valid = true) (hp : 0 ≤ p) :
    (write image_ctx off len bl fl p).result =
      ((clip_io image_ctx.size off len).2 : Int) ∧
    (discard image_ctx off len gran p).result =
      ((clip_io image_ctx.size off len).2 : Int) ∧
    (write_same image_ctx off len bl fl p).result =
      ((clip_io image_ctx.size off len).2 : Int) ∧
    (compare_and_write image_ctx off len cmp_bl bl fl p).result =
      ((clip_io image_ctx.size off len).2 : Int) :=
  ⟨write_result_eq_clipped image_ctx off len bl fl p hclip hvalid hp,
   discard_result_eq_clipped image_ctx off len gran p hclip hvalid hp,
   write_same_result_eq_clipped image_ctx off len bl fl p hclip hvalid hp,
   caw_result_eq_clipped image_ctx off len cmp_bl bl fl p hclip hvalid hp⟩

theorem sync_write_class_returns_clipped_witness :
    (write ⟨1000, true, false⟩ 900 200 [] 0 7).result = 100 :=
  ((sync_write_class_returns_clipped ⟨1000, true, false⟩ 900 200 0 [] [] 0 7
    (by decide) rfl (by norm_num)).1).trans (by decide)

/-- C5: every asynchronous entry point, given a completion not yet
failed, either calls `fail` exactly once and submits no request, or
submits exactly one request and never calls `fail` — never both, never
neither. -/
theorem aio_resolves_exactly_once (image_ctx : ImageCtx)
    (c : AioCompletion) (off len gran : Nat) (bl cmp_bl : List Nat)
    (fl : Int) (na : Bool) (h : c.fail_count = 0) :
    (((aio_read image_ctx c off len fl na).1.fail_count = 1 ∧
        (aio_read image_ctx c off len fl na).2 = none) ∨
      ((aio_read image_ctx c off len fl na).1.fail_count = 0 ∧
        (aio_read image_ctx c off len fl na).2.isSome = true)) ∧
    (((aio_write image_ctx c off len bl fl na).1.fail_count = 1 ∧
        (aio_write image_ctx c off len bl fl na).2 = none) ∨
      ((aio_write image_ctx c off len bl fl na).1.fail_count = 0 ∧
        (aio_write image_ctx c off len bl fl na).2.isSome = true)) ∧
    (((aio_discard image_ctx c off len gran na).1.fail_count = 1 ∧
        (aio_discard image_ctx c off len gran na).2 = none) ∨
      ((aio_discard image_ctx c off len gran na).1.fail_count = 0 ∧
        (aio_discard image_ctx c off len gran na).2.isSome = true)) ∧
    (((aio_write_same image_ctx c off len bl fl na).1.fail_count = 1 ∧
        (aio_write_same image_ctx c off len bl fl na).2 = none) ∨
      ((aio_write_same image_ctx c off len bl fl na).1.fail_count = 0 ∧
        (aio_write_same image_ctx c off len bl fl na).2.isSome = true)) ∧
    (((aio_compare_and_write image_ctx c off len cmp_bl bl fl
          na).1.fail_count = 1 ∧
        (aio_compare_and_write image_ctx c off len cmp_bl bl fl na).2 =
          none) ∨
      ((aio_compare_and_write image_ctx c off len cmp_bl bl fl
          na).1.fail_count = 0 ∧
        (aio_compare_and_write image_ctx c off len cmp_bl bl fl
          na).2.isSome = true)) ∧
    (((aio_flush image_ctx c na).1.fail_count = 1 ∧
        (aio_flush image_ctx c na).2 = none) ∨
      ((aio_flush image_ctx c na).1.fail_count = 0 ∧
        (aio_flush image_ctx c na).2.isSome = true)) := by
  cases hv : image_ctx.data_ctx_valid <;>
    cases hn : na && image_ctx.event_socket_valid <;>
      simp [aio_read, aio_write, aio_discard, aio_write_same,
        aio_compare_and_write, aio_flush, is_valid_io, hv, hn, h,
        AioCompletion.init_time, AioCompletion.set_event_notify,
        AioCompletion.fail]

theorem aio_resolves_exactly_once_witness :
    ((aio_flush ⟨16, true, true⟩ AioCompletion.create true).1.fail_count =
        1 ∧
      (aio_flush ⟨16, true, true⟩ AioCompletion.create true).2 = none) ∨
    ((aio_flush ⟨16, true, true⟩ AioCompletion.create true).1.fail_count =
        0 ∧
      (aio_flush ⟨16, true, true⟩ AioCompletion.create true).2.isSome =
        true) :=
  (aio_resolves_exactly_once ⟨16, true, true⟩ AioCompletion.create
    0 0 0 [] [] 0 true rfl).2.2.2.2.2

/-- C6: the synchronous read wrapper performs no clipping of its own —
the submitted request carries the caller's offset and length unchanged —
and returns the value delivered through the completion as-is. -/
theorem sync_read_passthrough (image_ctx : ImageCtx) (off len : Nat)
    (fl p : Int) (h : image_ctx.data_ctx_valid = true) :
    (read image_ctx off len fl p).result = p ∧
    (read image_ctx off len fl p).submitted =
      some (.read .api_start off len fl) := by
  have hf : (aio_read image_ctx AioCompletion.create off len fl
      false).1.fail_code = none :=
    (aio_read_fail_code_of_valid image_ctx AioCompletion.create off len fl
      false h).trans rfl
  constructor
  · simp [read, wait_result, hf]
  · simp [read, aio_read, is_valid_io, h]

theorem sync_read_passthrough_witness :
    (read ⟨8, true, false⟩ 2 3 0 (-5)).result = -5 ∧
    (read ⟨8, true, false⟩ 2 3 0 (-5)).submitted =
      some (.read .api_start 2 3 0) :=
  sync_read_passthrough ⟨8, true, false⟩ 2 3 0 (-5) rfl

/-- C7: the synchronous flush wrapper returns 0 when the pipeline
resolves the completion non-negatively, and the negative error code when
the pipeline resolves it with an error. -/
theorem sync_flush_result (image_ctx : ImageCtx) (p : Int)
    (h : image_ctx.data_ctx_valid = true) :
    (0 ≤ p → (flush image_ctx p).result = 0) ∧
    (p < 0 → (flush image_ctx p).result = p) := by
  have hf : (aio_flush image_ctx AioCompletion.create false).1.fail_code =
      none :=
    (aio_flush_fail_code_of_valid image_ctx AioCompletion.create false
      h).trans rfl
  constructor <;> intro hp
  · simp [flush, wait_result, hf, not_lt.mpr hp]
  · simp [flush, wait_result, hf, hp]

theorem sync_flush_result_witness :
    (flush ⟨64, true, false⟩ 3).result = 0 ∧
    (flush ⟨64, true, false⟩ (-7)).result = -7 :=
  ⟨(sync_flush_result ⟨64, true, false⟩ 3 rfl).1 (by norm_num),
   (sync_flush_result ⟨64, true, false⟩ (-7) rfl).2 (by norm_num)⟩

/-- C8: for every asynchronous entry point, starting from a completion
whose event-notify flag is unset, the flag ends up set iff the caller
passed `native_async = true` and the image's event channel is valid. -/
theorem aio_event_notify_iff (image_ctx : ImageCtx) (c : AioCompletion)
    (off len gran : Nat) (bl cmp_bl : List Nat) (fl : Int) (na : Bool)
    (h : c.event_notify = false) :
    (aio_read image_ctx c off len fl na).1.event_notify =
      (na && image_ctx.event_socket_valid) ∧
    (aio_write image_ctx c off len bl fl na).1.event_notify =
      (na && image_ctx.event_socket_valid) ∧
    (aio_discard image_ctx c off len gran na).1.event_notify =
      (na && image_ctx.event_socket_valid) ∧
    (aio_write_same image_ctx c off len bl fl na).1.event_notify =
      (na && image_ctx.event_socket_valid) ∧
    (aio_compare_and_write image_ctx c off len cmp_bl bl fl
        na).1.event_notify = (na && image_ctx.event_socket_valid) ∧
    (aio_flush image_ctx c na).1.event_notify =
      (na && image_ctx.event_socket_valid) := by
  cases hv : image_ctx.data_ctx_valid <;>
    cases hn : na && image_ctx.event_socket_valid <;>
      simp [aio_read, aio_write, aio_discard, aio_write_same,
        aio_compare_and_write, aio_flush, is_valid_io, hv, hn, h,
        AioCompletion.init_time, AioCompletion.set_event_notify,
        AioCompletion.fail]

theorem aio_event_notify_iff_witness :
    (aio_read ⟨1000, true, true⟩ AioCompletion.create 0 4 0
        true).1.event_notify = true ∧
    (aio_read ⟨1000, true, false⟩ AioCompletion.create 0 4 0
        true).1.event_notify = false :=
  ⟨((aio_event_notify_iff ⟨1000, true, true⟩ AioCompletion.create
      0 4 0 [] [] 0 true rfl).1).trans (by decide),
   ((aio_event_notify_iff ⟨1000, true, false⟩ AioCompletion.create
      0 4 0 [] [] 0 true rfl).1).trans (by decide)⟩

theorem aio_read_notify_not_native (image_ctx : ImageCtx)
    (c : AioCompletion) (off len : Nat) (fl : Int) :
    (aio_read image_ctx c off len fl false).1.event_notify =
      c.event_notify := by
  cases hv : image_ctx.data_ctx_valid <;>
    simp [aio_read, is_valid_io, hv, AioCompletion.init_time,
      AioCompletion.set_event_notify, AioCompletion.fail]

theorem aio_write_notify_not_native (image_ctx : ImageCtx)
    (c : AioCompletion) (off len : Nat) (bl : List Nat) (fl : Int) :
    (aio_write image_ctx c off len bl fl false).1.event_notify =
      c.event_notify := by
  cases hv : image_ctx.data_ctx_valid <;>
    simp [aio_write, is_valid_io, hv, AioCompletion.init_time,
      AioCompletion.set_event_notify, AioCompletion.fail]

theorem aio_discard_notify_not_native (image_ctx : ImageCtx)
    (c : AioCompletion) (off len gran : Nat) :
    (aio_discard image_ctx c off len gran false).1.event_notify =
      c.event_notify := by
  cases hv : image_ctx.data_ctx_valid <;>
    simp [aio_discard, is_valid_io, hv, AioCompletion.init_time,
      AioCompletion.set_event_notify, AioCompletion.fail]

theorem aio_write_same_notify_not_native (image_ctx : ImageCtx)
    (c : AioCompletion) (off len : Nat) (bl : List Nat) (fl : Int) :
    (aio_write_same image_ctx c off len bl fl false).1.event_notify =
      c.event_notify := by
  cases hv : image_ctx.data_ctx_valid <;>
    simp [aio_write_same, is_valid_io, hv, AioCompletion.init_time,
      AioCompletion.set_event_notify, AioCompletion.fail]

theorem aio_caw_notify_not_native (image_ctx : ImageCtx)
    (c : AioCompletion) (off len : Nat) (cmp_bl bl : List Nat) (fl : Int) :
    (aio_compare_and_write image_ctx c off len cmp_bl bl fl
        false).1.event_notify = c.event_notify := by
  cases hv : image_ctx.data_ctx_valid <;>
    simp [aio_compare_and_write, is_valid_io, hv, AioCompletion.init_time,
      AioCompletion.set_event_notify, AioCompletion.fail]

theorem aio_flush_notify_not_native (image_ctx : ImageCtx)
    (c : AioCompletion) :
    (aio_flush image_ctx c false).1.event_notify = c.event_notify := by
  cases hv : image_ctx.data_ctx_valid <;>
    simp [aio_flush, is_valid_io, hv, AioCompletion.init_time,
      AioCompletion.set_event_notify, AioCompletion.fail]

/-- C9: every synchronous wrapper calls its asynchronous entry point with
`native_async = false`, so the completion a synchronous call creates
never has its event-notify flag set, whatever the event channel's
validity. -/
theorem sync_wrappers_never_event_notify (image_ctx : ImageCtx)
    (off len gran : Nat) (bl cmp_bl : List Nat) (fl p : Int) :
    outcome_event_notify (read image_ctx off len fl p) = false ∧
    outcome_event_notify (write image_ctx off len bl fl p) = false ∧
    outcome_event_notify (discard image_ctx off len gran p) = false ∧
    outcome_event_notify (write_same image_ctx off len bl fl p) = false ∧
    outcome_event_notify
      (compare_and_write image_ctx off len cmp_bl bl fl p) = false ∧
    outcome_event_notify (flush image_ctx p) = false := by
  refine ⟨?_, ?_, ?_, ?_, ?_, ?_⟩
  · simp [read, outcome_event_notify, aio_read_notify_not_native,
      AioCompletion.create]
  · simp only [write]
    split_ifs <;>
      simp [outcome_event_notify, aio_write_notify_not_native,
        AioCompletion.create]
  · simp only [discard]
    split_ifs <;>
      simp [outcome_event_notify, aio_discard_notify_not_native,
        AioCompletion.create]
  · simp only [write_same]
    split_ifs <;>
      simp [outcome_event_notify, aio_write_same_notify_not_native,
        AioCompletion.create]
  · simp only [compare_and_write]
    split_ifs <;>
      simp [outcome_event_notify, aio_caw_notify_not_native,
        AioCompletion.create]
  · simp only [flush]
    split_ifs <;>
      simp [outcome_event_notify, aio_flush_notify_not_native,
        AioCompletion.create]

/-- C10: for every synchronous write-class call whose completion the
pipeline resolves non-negatively, the magnitude of the pipeline's result
is discarded — the returned value is the clipped length for any two
non-negative pipeline results. -/
theorem sync_write_class_discards_pipeline_value (image_ctx : ImageCtx)
    (off len gran : Nat) (bl cmp_bl : List Nat) (fl : Int) (p q : Int)
    (hclip : (clip_io image_ctx.size off len).1 = 0)
    (hvalid : image_ctx.data_ctx_valid = true)
    (hp : 0 ≤ p) (hq : 0 ≤ q) :
    ((write image_ctx off len bl fl p).result =
        (write image_ctx off len bl fl q).result ∧
      (write image_ctx off len bl fl p).result =
        ((clip_io image_ctx.size off len).2 : Int)) ∧
    ((discard image_ctx off len gran p).result =
        (discard image_ctx off len gran q).result ∧
      (discard image_ctx off len gran p).result =
        ((clip_io image_ctx.size off len).2 : Int)) ∧
    ((write_same image_ctx off len bl fl p).result =
        (write_same image_ctx off len bl fl q).result ∧
      (write_same image_ctx off len bl fl p).result =
        ((clip_io image_ctx.size off len).2 : Int)) ∧
    ((compare_and_write image_ctx off len cmp_bl bl fl p).result =
        (compare_and_write image_ctx off len cmp_bl bl fl q).result ∧
      (compare_and_write image_ctx off len cmp_bl bl fl p).result =
        ((clip_io image_ctx.size off len).2 : Int)) :=
  ⟨⟨(write_result_eq_clipped image_ctx off len bl fl p hclip hvalid
        hp).trans
      (write_result_eq_clipped image_ctx off len bl fl q hclip hvalid
        hq).symm,
    write_result_eq_clipped image_ctx off len bl fl p hclip hvalid hp⟩,
   ⟨(discard_result_eq_clipped image_ctx off len gran p hclip hvalid
        hp).trans
      (discard_result_eq_clipped image_ctx off len gran q hclip hvalid
        hq).symm,
    discard_result_eq_clipped image_ctx off len gran p hclip hvalid hp⟩,
   ⟨(write_same_result_eq_clipped image_ctx off len bl fl p hclip hvalid
        hp).trans
      (write_same_result_eq_clipped image_ctx off len bl fl q hclip hvalid
        hq).symm,
    write_same_result_eq_clipped image_ctx off len bl fl p hclip hvalid
      hp⟩,
   ⟨(caw_result_eq_clipped image_ctx off len cmp_bl bl fl p hclip hvalid
        hp).trans
      (caw_result_eq_clipped image_ctx off len cmp_bl bl fl q hclip hvalid
        hq).symm,
    caw_result_eq_clipped image_ctx off len cmp_bl bl fl p hclip hvalid
      hp⟩⟩

theorem sync_write_class_discards_pipeline_value_witness :
    (discard ⟨1000, true, false⟩ 900 200 512 5).result =
      (discard ⟨1000, true, false⟩ 900 200 512 123456).result :=
  ((sync_write_class_discards_pipeline_value ⟨1000, true, false⟩ 900 200
    512 [] [] 0 5 123456 (by decide) rfl (by norm_num)
    (by norm_num)).2.1).1

end RbdIo
